import Mathlib

/-!
Shallow embedding of the PXE lifecycle state reconciler and API call
dispatcher from src/interface/pxe/pxe.c, together with theorems about the
properties stated in the design document.

The embedded code consists of:
  - pxe_initialise_nic, pxe_shutdown_nic : the NIC lifecycle transitions;
  - ensure_pxe_state : the state reconciler;
  - pxe_api_call : the opcode dispatcher.

External collaborators (hook_pxe_stack / unhook_pxe_stack from
pxe_callbacks.c, the NIC driver operations, the opcode handler bodies, and
the declarations from pxe.h) are not part of the excerpt; they are modelled
from the design document as explicitly noted on each definition.

Effects are made explicit: each operation returns its boolean result, the
updated state, and a trace of the step entries and provider calls it
performed, so that claims about which operations were invoked are
observable.
-/

/-- The three lifecycle states of the PXE stack, in the order of the
enumeration used by the C code (the code compares them with >=, >, <).
Declared in pxe.h (not part of the excerpt); ranks 0, 1, 2 per the design
document, which calls them UNHOOKED, HOOKED and READY. -/
inductive pxe_stack_state_t where
  | CAN_UNLOAD
  | MIDWAY
  | READY
deriving DecidableEq, Repr, Fintype

open pxe_stack_state_t

/-- Numeric rank of a lifecycle state: the value of the C enumeration
constant, used for all state comparisons in the embedded code. -/
def rank : pxe_stack_state_t → Nat
  | CAN_UNLOAD => 0
  | MIDWAY => 1
  | READY => 2

/-- The PXE stack handle: holds the current lifecycle state. -/
structure pxe_stack_t where
  state : pxe_stack_state_t
deriving DecidableEq, Repr, Fintype

/-- The program state visible to the reconciler: the global stack pointer
(pxe_stack in pxe.c, NULL modelled as none) and a ghost flag recording
whether the interrupt vectors are currently hooked (the observable effect
of the external hook and unhook operations). -/
structure World where
  pxe_stack : Option pxe_stack_t
  hooked : Bool
deriving DecidableEq, Repr, Fintype

/-- Trace events: entries into the reconciliation steps and calls to
provider operations.  nicProbe is the NIC provider probe/initialize
operation (eth_probe); ethIrqDisable and devDisable are the NIC provider
interrupt-disable and device-disable calls. -/
inductive PxeEvent where
  | hookInstall
  | hookRemove
  | nicBringUp
  | nicTearDown
  | nicProbe
  | ethIrqDisable
  | devDisable
deriving DecidableEq, Repr, Fintype

/-- One reconciliation call's provider outcomes: the boolean results the
external hook provider returns for its install and remove operations. -/
structure Providers where
  installResult : Bool
  removeResult : Bool
deriving DecidableEq, Repr, Fintype

/-- Modelled from the spec: hook_pxe_stack is architecture-specific code in
pxe_callbacks.c, absent from the excerpt.  Per the design document the hook
provider's install operation is an idempotent boolean operation; on success
the interrupt vectors are hooked, on failure they are left as they were. -/
def hook_pxe_stack (p : Providers) (hooked : Bool) : Bool × Bool × List PxeEvent :=
  (p.installResult, (if p.installResult then true else hooked), [PxeEvent.hookInstall])

/-- Modelled from the spec: unhook_pxe_stack is architecture-specific code
in pxe_callbacks.c, absent from the excerpt.  Per the design document the
hook provider's remove operation is an idempotent boolean operation; on
success the interrupt vectors are unhooked, on failure left as they were. -/
def unhook_pxe_stack (p : Providers) (hooked : Bool) : Bool × Bool × List PxeEvent :=
  (p.removeResult, (if p.removeResult then false else hooked), [PxeEvent.hookRemove])

/-- NIC bring-up, from pxe.c lines 94-138.  If the state is already READY
it returns 1 at once.  The device-probing block that follows is disabled
with an if-0 preprocessor guard (marked by a warning directive that the
probing mechanism has completely changed), so the compiled function falls
through to set the state to READY and return 1 unconditionally: no NIC
provider probe call is ever made and there is no failure path.  The trace
records the entry into the step. -/
def pxe_initialise_nic (s : pxe_stack_t) : Bool × pxe_stack_t × List PxeEvent :=
  if rank READY ≤ rank s.state then
    (true, s, [PxeEvent.nicBringUp])
  else
    (true, { s with state := READY }, [PxeEvent.nicBringUp])

/-- NIC tear-down, from pxe.c lines 140-147.  If the state is at most
MIDWAY it returns 1 at once; otherwise it disables the NIC interrupt,
disables the device, sets the state to MIDWAY and returns 1. -/
def pxe_shutdown_nic (s : pxe_stack_t) : Bool × pxe_stack_t × List PxeEvent :=
  if rank s.state ≤ rank MIDWAY then
    (true, s, [PxeEvent.nicTearDown])
  else
    (true, { s with state := MIDWAY },
     [PxeEvent.nicTearDown, PxeEvent.ethIrqDisable, PxeEvent.devDisable])

/-- The state reconciler, from pxe.c lines 149-163.  With no stack handle
it returns 0 immediately.  Otherwise it evaluates every selected step
(hook install when wanted >= MIDWAY, exactly one of NIC bring-up and NIC
tear-down by the strict else on wanted > MIDWAY, hook removal when
wanted < MIDWAY) and combines the results with the C bitwise AND on a
success accumulator initialised to 1, which on 0/1 values is the logical
AND; a step is evaluated whether or not an earlier step failed. -/
def ensure_pxe_state (p : Providers) (wanted : pxe_stack_state_t) (w : World) :
    Bool × World × List PxeEvent :=
  match w.pxe_stack with
  | none => (false, w, [])
  | some s0 =>
      let hookStep : Bool × Bool × List PxeEvent :=
        if rank MIDWAY ≤ rank wanted then hook_pxe_stack p w.hooked
        else (true, w.hooked, [])
      let nicStep : Bool × pxe_stack_t × List PxeEvent :=
        if rank MIDWAY < rank wanted then pxe_initialise_nic s0
        else pxe_shutdown_nic s0
      let unhookStep : Bool × Bool × List PxeEvent :=
        if rank wanted < rank MIDWAY then unhook_pxe_stack p hookStep.2.1
        else (true, hookStep.2.1, [])
      (hookStep.1 && nicStep.1 && unhookStep.1,
       { pxe_stack := some nicStep.2.1, hooked := unhookStep.2.1 },
       hookStep.2.2 ++ nicStep.2.2 ++ unhookStep.2.2)

/-- Run a sequence of reconciliation calls, each with its own provider
outcomes and requested state, threading the program state through. -/
def run_calls (calls : List (Providers × pxe_stack_state_t)) (w : World) : World :=
  calls.foldl (fun w c => (ensure_pxe_state c.1 c.2 w).2.1) w

/-- The invariant stated in the design document and in the comment block
of pxe.c: the NIC is never initialised (state READY) without the interrupt
vectors being hooked. -/
def nic_implies_hooked (w : World) : Bool :=
  match w.pxe_stack with
  | none => true
  | some s => if s.state = READY then w.hooked else true

/-- Modelled from the spec: the numeric PXE API status codes are declared
in pxe.h, absent from the excerpt.  Generic failure code, preset by the
dispatcher before any handler runs. -/
def PXENV_STATUS_FAILURE : Nat := 0x01

/-- Modelled from the spec: generic success status code (pxe.h). -/
def PXENV_STATUS_SUCCESS : Nat := 0x00

/-- Modelled from the spec: the unsupported-operation status code (pxe.h),
set by the dispatcher for opcodes outside the registry. -/
def PXENV_STATUS_UNSUPPORTED : Nat := 0x02

/-- Modelled from the spec: exit outcome SUCCESS (pxe.h). -/
def PXENV_EXIT_SUCCESS : Nat := 0x0000

/-- Modelled from the spec: exit outcome FAILURE (pxe.h). -/
def PXENV_EXIT_FAILURE : Nat := 0x0001

/-- The API envelope: the union u_PXENV_ANY passed by the caller.  Every
member shares the leading Status field; the remainder of the
request/response record is abstracted as a payload of arbitrary type. -/
structure Envelope (ρ : Type) where
  Status : Nat
  payload : ρ
deriving DecidableEq, Repr

/-- Modelled from the spec: opcode value declared in pxe.h. -/
def PXENV_START_UNDI : Nat := 0x0000

/-- Modelled from the spec: opcode value declared in pxe.h. -/
def PXENV_UNDI_STARTUP : Nat := 0x0001

/-- Modelled from the spec: opcode value declared in pxe.h. -/
def PXENV_UNDI_CLEANUP : Nat := 0x0002

/-- Modelled from the spec: opcode value declared in pxe.h. -/
def PXENV_UNDI_INITIALIZE : Nat := 0x0003

/-- Modelled from the spec: opcode value declared in pxe.h. -/
def PXENV_UNDI_RESET_ADAPTER : Nat := 0x0004

/-- Modelled from the spec: opcode value declared in pxe.h. -/
def PXENV_UNDI_SHUTDOWN : Nat := 0x0005

/-- Modelled from the spec: opcode value declared in pxe.h. -/
def PXENV_UNDI_OPEN : Nat := 0x0006

/-- Modelled from the spec: opcode value declared in pxe.h. -/
def PXENV_UNDI_CLOSE : Nat := 0x0007

/-- Modelled from the spec: opcode value declared in pxe.h. -/
def PXENV_UNDI_TRANSMIT : Nat := 0x0008

/-- Modelled from the spec: opcode value declared in pxe.h. -/
def PXENV_UNDI_SET_MCAST_ADDRESS : Nat := 0x0009

/-- Modelled from the spec: opcode value declared in pxe.h. -/
def PXENV_UNDI_SET_STATION_ADDRESS : Nat := 0x000A

/-- Modelled from the spec: opcode value declared in pxe.h. -/
def PXENV_UNDI_SET_PACKET_FILTER : Nat := 0x000B

/-- Modelled from the spec: opcode value declared in pxe.h. -/
def PXENV_UNDI_GET_INFORMATION : Nat := 0x000C

/-- Modelled from the spec: opcode value declared in pxe.h. -/
def PXENV_UNDI_GET_STATISTICS : Nat := 0x000D

/-- Modelled from the spec: opcode value declared in pxe.h. -/
def PXENV_UNDI_CLEAR_STATISTICS : Nat := 0x000E

/-- Modelled from the spec: opcode value declared in pxe.h. -/
def PXENV_UNDI_INITIATE_DIAGS : Nat := 0x000F

/-- Modelled from the spec: opcode value declared in pxe.h. -/
def PXENV_UNDI_FORCE_INTERRUPT : Nat := 0x0010

/-- Modelled from the spec: opcode value declared in pxe.h. -/
def PXENV_UNDI_GET_MCAST_ADDRESS : Nat := 0x0011

/-- Modelled from the spec: opcode value declared in pxe.h. -/
def PXENV_UNDI_GET_NIC_TYPE : Nat := 0x0012

/-- Modelled from the spec: opcode value declared in pxe.h. -/
def PXENV_UNDI_GET_IFACE_INFO : Nat := 0x0013

/-- Modelled from the spec: opcode value declared in pxe.h. -/
def PXENV_UNDI_ISR : Nat := 0x0014

/-- Modelled from the spec: opcode value declared in pxe.h. -/
def PXENV_STOP_UNDI : Nat := 0x0015

/-- Modelled from the spec: opcode value declared in pxe.h. -/
def PXENV_TFTP_OPEN : Nat := 0x0020

/-- Modelled from the spec: opcode value declared in pxe.h. -/
def PXENV_TFTP_CLOSE : Nat := 0x0021

/-- Modelled from the spec: opcode value declared in pxe.h. -/
def PXENV_TFTP_READ : Nat := 0x0022

/-- Modelled from the spec: opcode value declared in pxe.h. -/
def PXENV_TFTP_READ_FILE : Nat := 0x0023

/-- Modelled from the spec: opcode value declared in pxe.h. -/
def PXENV_TFTP_GET_FSIZE : Nat := 0x0025

/-- Modelled from the spec: opcode value declared in pxe.h. -/
def PXENV_UDP_OPEN : Nat := 0x0030

/-- Modelled from the spec: opcode value declared in pxe.h. -/
def PXENV_UDP_CLOSE : Nat := 0x0031

/-- Modelled from the spec: opcode value declared in pxe.h. -/
def PXENV_UDP_READ : Nat := 0x0032

/-- Modelled from the spec: opcode value declared in pxe.h. -/
def PXENV_UDP_WRITE : Nat := 0x0033

/-- Modelled from the spec: opcode value declared in pxe.h. -/
def PXENV_UNLOAD_STACK : Nat := 0x0070

/-- Modelled from the spec: opcode value declared in pxe.h. -/
def PXENV_GET_CACHED_INFO : Nat := 0x0071

/-- Modelled from the spec: opcode value declared in pxe.h. -/
def PXENV_RESTART_TFTP : Nat := 0x0073

/-- Modelled from the spec: opcode value declared in pxe.h. -/
def PXENV_START_BASE : Nat := 0x0075

/-- Modelled from the spec: opcode value declared in pxe.h. -/
def PXENV_STOP_BASE : Nat := 0x0076

/-- The opcode registry: the case labels of the dispatcher's switch in
pxe.c lines 178-295, in source order.  Any opcode outside this list falls
through to the default branch. -/
def pxe_opcode_list : List Nat :=
  [PXENV_START_UNDI, PXENV_UNDI_STARTUP, PXENV_UNDI_CLEANUP,
   PXENV_UNDI_INITIALIZE, PXENV_UNDI_RESET_ADAPTER, PXENV_UNDI_SHUTDOWN,
   PXENV_UNDI_OPEN, PXENV_UNDI_CLOSE, PXENV_UNDI_TRANSMIT,
   PXENV_UNDI_SET_MCAST_ADDRESS, PXENV_UNDI_SET_STATION_ADDRESS,
   PXENV_UNDI_SET_PACKET_FILTER, PXENV_UNDI_GET_INFORMATION,
   PXENV_UNDI_GET_STATISTICS, PXENV_UNDI_CLEAR_STATISTICS,
   PXENV_UNDI_INITIATE_DIAGS, PXENV_UNDI_FORCE_INTERRUPT,
   PXENV_UNDI_GET_MCAST_ADDRESS, PXENV_UNDI_GET_NIC_TYPE,
   PXENV_UNDI_GET_IFACE_INFO, PXENV_UNDI_ISR, PXENV_STOP_UNDI,
   PXENV_TFTP_OPEN, PXENV_TFTP_CLOSE, PXENV_TFTP_READ,
   PXENV_TFTP_READ_FILE, PXENV_TFTP_GET_FSIZE, PXENV_UDP_OPEN,
   PXENV_UDP_CLOSE, PXENV_UDP_READ, PXENV_UDP_WRITE, PXENV_UNLOAD_STACK,
   PXENV_GET_CACHED_INFO, PXENV_RESTART_TFTP, PXENV_START_BASE,
   PXENV_STOP_BASE]

/-- The API call dispatcher, from pxe.c lines 169-312.  The ~30 handler
bodies are external collaborators, so the dispatcher is parametrised by a
family of handler functions indexed by opcode; each handler borrows the
envelope and the program state (handlers call the reconciler) and returns
the updated envelope, its exit outcome and the updated program state.

The dispatcher first overwrites the envelope's Status with the generic
failure code, then switches on the opcode: a registered opcode's handler
is invoked on the envelope (the returned list records which handler was
invoked); an unknown opcode sets Status to the unsupported code and yields
exit outcome FAILURE without invoking anything.  The debug output that
follows the switch inspects Status and the exit outcome but changes
nothing. -/
def pxe_api_call {ρ : Type}
    (handlers : Nat → Envelope ρ → World → Envelope ρ × Nat × World)
    (opcode : Nat) (any : Envelope ρ) (w : World) :
    Nat × Envelope ρ × World × List Nat :=
  let any1 : Envelope ρ := { any with Status := PXENV_STATUS_FAILURE }
  if opcode ∈ pxe_opcode_list then
    let r := handlers opcode any1 w
    (r.2.1, r.1, r.2.2, [opcode])
  else
    (PXENV_EXIT_FAILURE, { any1 with Status := PXENV_STATUS_UNSUPPORTED }, w, [])

example : ensure_pxe_state ⟨true, true⟩ READY ⟨some ⟨CAN_UNLOAD⟩, false⟩ =
    (true, ⟨some ⟨READY⟩, true⟩,
     [PxeEvent.hookInstall, PxeEvent.nicBringUp]) := by decide

example : ensure_pxe_state ⟨true, false⟩ CAN_UNLOAD ⟨some ⟨READY⟩, true⟩ =
    (false, ⟨some ⟨MIDWAY⟩, true⟩,
     [PxeEvent.nicTearDown, PxeEvent.ethIrqDisable, PxeEvent.devDisable,
      PxeEvent.hookRemove]) := by decide

/-- A handler family used to instantiate dispatcher theorems at concrete
inputs: it returns the envelope untouched with exit outcome FAILURE. -/
def stub_handlers : Nat → Envelope Nat → World → Envelope Nat × Nat × World :=
  fun _ e w => (e, PXENV_EXIT_FAILURE, w)

/-- A handler family that never writes the Status field yet reports exit
outcome SUCCESS. -/
def silentSuccessHandlers : Nat → Envelope Nat → World → Envelope Nat × Nat × World :=
  fun _ e w => (e, PXENV_EXIT_SUCCESS, w)

/-- Claim C1: with a stack handle present, ensure_pxe_state invokes
exactly the steps selected by the rank comparisons — hook install iff
wanted is at least MIDWAY, exactly one of NIC bring-up (iff wanted is
strictly above MIDWAY) and NIC tear-down, hook removal iff wanted is
strictly below MIDWAY — regardless of the provider outcomes (in
particular whether the hook install fails), and the returned boolean is
the logical AND of the results of exactly the invoked steps. -/
theorem ensure_pxe_state_runs_all_steps (p : Providers) (wanted : pxe_stack_state_t)
    (w : World) (s0 : pxe_stack_t) (h : w.pxe_stack = some s0) :
    ((PxeEvent.hookInstall ∈ (ensure_pxe_state p wanted w).2.2) ↔
      rank MIDWAY ≤ rank wanted) ∧
    ((PxeEvent.nicBringUp ∈ (ensure_pxe_state p wanted w).2.2) ↔
      rank MIDWAY < rank wanted) ∧
    ((PxeEvent.nicTearDown ∈ (ensure_pxe_state p wanted w).2.2) ↔
      ¬ rank MIDWAY < rank wanted) ∧
    ((PxeEvent.hookRemove ∈ (ensure_pxe_state p wanted w).2.2) ↔
      rank wanted < rank MIDWAY) ∧
    (ensure_pxe_state p wanted w).1 =
      ((if rank MIDWAY ≤ rank wanted then (hook_pxe_stack p w.hooked).1 else true) &&
       (if rank MIDWAY < rank wanted then (pxe_initialise_nic s0).1
        else (pxe_shutdown_nic s0).1) &&
       (if rank wanted < rank MIDWAY then (unhook_pxe_stack p w.hooked).1 else true)) := by
  revert p wanted w s0
  decide

/-- Witness for C1 at a concrete input: hook install fails while READY is
requested, yet NIC bring-up is still attempted and the combined result is
false. -/
theorem ensure_pxe_state_runs_all_steps_witness :
    (PxeEvent.nicBringUp ∈ (ensure_pxe_state ⟨false, true⟩ READY ⟨some ⟨MIDWAY⟩, true⟩).2.2) ∧
    (ensure_pxe_state ⟨false, true⟩ READY ⟨some ⟨MIDWAY⟩, true⟩).1 = false :=
  ⟨((ensure_pxe_state_runs_all_steps ⟨false, true⟩ READY ⟨some ⟨MIDWAY⟩, true⟩ ⟨MIDWAY⟩
      rfl).2.1).mpr (by decide), by decide⟩

/-- Claim C2, evaluating the code at the failing input: with the state at
MIDWAY (a state below READY, where per the claim the NIC provider's probe
operation must be consulted and can fail), the compiled bring-up returns
success and records READY while its trace contains no NIC provider probe
call — the probing block is preprocessor-disabled, so there is no
delegation and no failure path, contradicting the source's own comment
that a READY request can fail when the NIC location is unknown. -/
theorem pxe_initialise_nic_skips_probe :
    pxe_initialise_nic ⟨MIDWAY⟩ = (true, ⟨READY⟩, [PxeEvent.nicBringUp]) ∧
    PxeEvent.nicProbe ∉ (pxe_initialise_nic ⟨MIDWAY⟩).2.2 := by
  decide

/-- Claim C3 counterexample: from recorded state READY, requesting
CAN_UNLOAD with a failing hook-removal provider makes ensure_pxe_state
return false, yet the recorded state has changed from READY to MIDWAY —
a failed reconciliation does not leave the Lifecycle State unchanged. -/
theorem ensure_pxe_state_failed_call_changes_state :
    (ensure_pxe_state ⟨true, false⟩ CAN_UNLOAD ⟨some ⟨READY⟩, true⟩).1 = false ∧
    (ensure_pxe_state ⟨true, false⟩ CAN_UNLOAD ⟨some ⟨READY⟩, true⟩).2.1.pxe_stack =
      some ⟨MIDWAY⟩ ∧
    (⟨MIDWAY⟩ : pxe_stack_t) ≠ ⟨READY⟩ := by
  decide

/-- Claim C3 as amended: a failed reconciliation reports failure but the
steps that succeeded still took effect; what holds is that the recorded
state after the call — whether it returns true or false, for any provider
outcomes — is determined by the previous state and the requested state
alone (READY when wanted is above MIDWAY, otherwise unchanged when it was
at most MIDWAY, else MIDWAY), so a failed call never corrupts the state
and the caller may safely retry. -/
theorem ensure_pxe_state_state_deterministic (p : Providers) (wanted : pxe_stack_state_t)
    (w : World) (s0 : pxe_stack_t) (h : w.pxe_stack = some s0) :
    (ensure_pxe_state p wanted w).2.1.pxe_stack =
      some (if rank MIDWAY < rank wanted then ⟨READY⟩
            else if rank s0.state ≤ rank MIDWAY then s0 else ⟨MIDWAY⟩) := by
  revert p wanted w s0
  decide

/-- Witness for the amended C3 at a concrete input. -/
theorem ensure_pxe_state_state_deterministic_witness :
    (ensure_pxe_state ⟨true, false⟩ CAN_UNLOAD ⟨some ⟨READY⟩, true⟩).2.1.pxe_stack =
      some (if rank MIDWAY < rank CAN_UNLOAD then ⟨READY⟩
            else if rank READY ≤ rank MIDWAY then ⟨READY⟩ else ⟨MIDWAY⟩) :=
  ensure_pxe_state_state_deterministic ⟨true, false⟩ CAN_UNLOAD ⟨some ⟨READY⟩, true⟩
    ⟨READY⟩ rfl

/-- Claim C4 counterexample: READY is reachable (a successful
ensure_pxe_state toward READY records READY); a subsequent
ensure_pxe_state toward CAN_UNLOAD with all providers succeeding returns
true, yet the recorded state is MIDWAY, not the requested CAN_UNLOAD —
the state field is never written to CAN_UNLOAD. -/
theorem ensure_pxe_state_unhooked_not_recorded :
    (ensure_pxe_state ⟨true, true⟩ READY ⟨some ⟨CAN_UNLOAD⟩, false⟩).1 = true ∧
    (ensure_pxe_state ⟨true, true⟩ READY ⟨some ⟨CAN_UNLOAD⟩, false⟩).2.1.pxe_stack =
      some ⟨READY⟩ ∧
    (ensure_pxe_state ⟨true, true⟩ CAN_UNLOAD
      (ensure_pxe_state ⟨true, true⟩ READY ⟨some ⟨CAN_UNLOAD⟩, false⟩).2.1).1 = true ∧
    (ensure_pxe_state ⟨true, true⟩ CAN_UNLOAD
      (ensure_pxe_state ⟨true, true⟩ READY ⟨some ⟨CAN_UNLOAD⟩, false⟩).2.1).2.1.pxe_stack =
      some ⟨MIDWAY⟩ := by
  decide

/-- Claim C4 as amended: when ensure_pxe_state(b) returns true the
recorded state equals b exactly when b is READY; for b at most MIDWAY the
recorded state is the minimum of the previous state and MIDWAY — the
field is never set to CAN_UNLOAD (hook removal is performed but not
recorded), and a MIDWAY request does not raise a recorded CAN_UNLOAD. -/
theorem ensure_pxe_state_success_state (p : Providers) (wanted : pxe_stack_state_t)
    (w : World) (s0 : pxe_stack_t) (h : w.pxe_stack = some s0)
    (hs : (ensure_pxe_state p wanted w).1 = true) :
    (wanted = READY →
      (ensure_pxe_state p wanted w).2.1.pxe_stack = some ⟨READY⟩) ∧
    (ensure_pxe_state p wanted w).2.1.pxe_stack =
      some (if rank MIDWAY < rank wanted then ⟨READY⟩
            else if rank s0.state ≤ rank MIDWAY then s0 else ⟨MIDWAY⟩) := by
  revert p wanted w s0
  decide

/-- Witness for the amended C4 at a concrete input. -/
theorem ensure_pxe_state_success_state_witness :
    (ensure_pxe_state ⟨true, true⟩ READY ⟨some ⟨MIDWAY⟩, false⟩).1 = true ∧
    ((READY = READY →
      (ensure_pxe_state ⟨true, true⟩ READY ⟨some ⟨MIDWAY⟩, false⟩).2.1.pxe_stack =
        some ⟨READY⟩) ∧
     (ensure_pxe_state ⟨true, true⟩ READY ⟨some ⟨MIDWAY⟩, false⟩).2.1.pxe_stack =
       some (if rank MIDWAY < rank READY then ⟨READY⟩
             else if rank MIDWAY ≤ rank MIDWAY then ⟨MIDWAY⟩ else ⟨MIDWAY⟩)) :=
  ⟨by decide,
   ensure_pxe_state_success_state ⟨true, true⟩ READY ⟨some ⟨MIDWAY⟩, false⟩ ⟨MIDWAY⟩
     rfl (by decide)⟩

/-- Claim C5: with no stack handle, ensure_pxe_state returns false for
every requested state and every provider configuration, leaves the
program state untouched, and invokes no hook or NIC provider operation
(the trace is empty). -/
theorem ensure_pxe_state_no_stack (p : Providers) (wanted : pxe_stack_state_t)
    (w : World) (h : w.pxe_stack = none) :
    ensure_pxe_state p wanted w = (false, w, []) := by
  revert p wanted w
  decide

/-- Witness for C5 at a concrete input. -/
theorem ensure_pxe_state_no_stack_witness :
    ensure_pxe_state ⟨true, true⟩ READY ⟨none, false⟩ = (false, ⟨none, false⟩, []) :=
  ensure_pxe_state_no_stack ⟨true, true⟩ READY ⟨none, false⟩ rfl

/-- Claim C6 counterexample: the state ⟨stack recorded CAN_UNLOAD, vectors
not hooked⟩ satisfies the invariant that READY implies hooked; a single
ensure_pxe_state call requesting READY whose hook install fails produces
a state with the NIC recorded as initialised (READY) while the interrupt
vectors are not hooked — the invariant is not preserved under arbitrary
provider failures. -/
theorem nic_implies_hooked_violated :
    nic_implies_hooked ⟨some ⟨CAN_UNLOAD⟩, false⟩ = true ∧
    nic_implies_hooked
      (run_calls [(⟨false, true⟩, READY)] ⟨some ⟨CAN_UNLOAD⟩, false⟩) = false := by
  decide

theorem nic_implies_hooked_step (p : Providers) (wanted : pxe_stack_state_t)
    (w : World) (hp : p.installResult = true)
    (hw : nic_implies_hooked w = true) :
    nic_implies_hooked (ensure_pxe_state p wanted w).2.1 = true := by
  revert p wanted w
  decide

/-- Claim C6 as amended: the invariant that a READY state implies hooked
interrupt vectors is preserved by every sequence of ensure_pxe_state
calls in which each call's hook-install provider operation succeeds; a
failing hook install while READY is requested is exactly what breaks it,
because NIC bring-up is attempted unconditionally by design. -/
theorem nic_implies_hooked_preserved (calls : List (Providers × pxe_stack_state_t))
    (w : World) (hc : ∀ c ∈ calls, (c.1).installResult = true)
    (hw : nic_implies_hooked w = true) :
    nic_implies_hooked (run_calls calls w) = true := by
  induction calls generalizing w with
  | nil => exact hw
  | cons c cs ih =>
      have h1 : nic_implies_hooked (ensure_pxe_state c.1 c.2 w).2.1 = true :=
        nic_implies_hooked_step c.1 c.2 w (hc c (List.mem_cons_self c cs)) hw
      have h2 : ∀ c' ∈ cs, (c'.1).installResult = true :=
        fun c' hc' => hc c' (List.mem_cons_of_mem c hc')
      simpa [run_calls] using ih (ensure_pxe_state c.1 c.2 w).2.1 h2 h1

/-- Witness for the amended C6 at a concrete input. -/
theorem nic_implies_hooked_preserved_witness :
    nic_implies_hooked
      (run_calls [(⟨true, true⟩, READY), (⟨true, false⟩, CAN_UNLOAD)]
        ⟨some ⟨CAN_UNLOAD⟩, false⟩) = true :=
  nic_implies_hooked_preserved [(⟨true, true⟩, READY), (⟨true, false⟩, CAN_UNLOAD)]
    ⟨some ⟨CAN_UNLOAD⟩, false⟩ (by decide) (by decide)

/-- Claim C7 counterexample: a handler family that never writes the
Status field but reports exit outcome SUCCESS.  Dispatching a registered
opcode through it leaves Status at the preset generic failure code, yet
the dispatcher's exit outcome is SUCCESS — the dispatcher returns the
handler's outcome unexamined, so the claim's conclusion that the exit
outcome is not SUCCESS fails. -/
theorem pxe_api_call_silent_success_exit :
    (silentSuccessHandlers PXENV_START_UNDI ⟨PXENV_STATUS_FAILURE, 7⟩
      ⟨some ⟨MIDWAY⟩, true⟩).1.Status = PXENV_STATUS_FAILURE ∧
    (pxe_api_call silentSuccessHandlers PXENV_START_UNDI ⟨0x2A, 7⟩
      ⟨some ⟨MIDWAY⟩, true⟩).2.1.Status = PXENV_STATUS_FAILURE ∧
    (pxe_api_call silentSuccessHandlers PXENV_START_UNDI ⟨0x2A, 7⟩
      ⟨some ⟨MIDWAY⟩, true⟩).1 = PXENV_EXIT_SUCCESS := by
  decide

/-- Claim C7 as amended: for every registered opcode the dispatcher
presets the envelope's Status to the generic failure code before the
handler runs (the handler observes the preset envelope), so a handler
that never writes Status leaves Status at that failure value after
dispatch; the exit outcome is exactly the handler's returned outcome, so
it is not SUCCESS precisely when the stub does not itself return
SUCCESS. -/
theorem pxe_api_call_default_status (ρ : Type)
    (handlers : Nat → Envelope ρ → World → Envelope ρ × Nat × World)
    (opcode : Nat) (any : Envelope ρ) (w : World)
    (hin : opcode ∈ pxe_opcode_list)
    (hsilent : ∀ e w', ((handlers opcode e w').1).Status = e.Status) :
    (pxe_api_call handlers opcode any w).2.1.Status = PXENV_STATUS_FAILURE ∧
    (pxe_api_call handlers opcode any w).1 =
      (handlers opcode { any with Status := PXENV_STATUS_FAILURE } w).2.1 := by
  unfold pxe_api_call
  simp [hin, hsilent]

/-- Witness for the amended C7 at a concrete input. -/
theorem pxe_api_call_default_status_witness :
    (pxe_api_call silentSuccessHandlers PXENV_UDP_READ ⟨5, 3⟩ ⟨none, false⟩).2.1.Status =
      PXENV_STATUS_FAILURE ∧
    (pxe_api_call silentSuccessHandlers PXENV_UDP_READ ⟨5, 3⟩ ⟨none, false⟩).1 =
      (silentSuccessHandlers PXENV_UDP_READ ⟨PXENV_STATUS_FAILURE, 3⟩ ⟨none, false⟩).2.1 :=
  pxe_api_call_default_status Nat silentSuccessHandlers PXENV_UDP_READ ⟨5, 3⟩
    ⟨none, false⟩ (by decide) (fun e w' => rfl)

/-- Claim C8: for every opcode outside the registry, the dispatcher
returns exit outcome FAILURE, sets the envelope's Status to the
unsupported-operation code, and invokes no handler (the invoked-handler
list is empty), for any handler family, envelope and program state. -/
theorem pxe_api_call_unknown_opcode (ρ : Type)
    (handlers : Nat → Envelope ρ → World → Envelope ρ × Nat × World)
    (opcode : Nat) (any : Envelope ρ) (w : World)
    (hout : opcode ∉ pxe_opcode_list) :
    (pxe_api_call handlers opcode any w).1 = PXENV_EXIT_FAILURE ∧
    (pxe_api_call handlers opcode any w).2.1.Status = PXENV_STATUS_UNSUPPORTED ∧
    (pxe_api_call handlers opcode any w).2.2.2 = [] := by
  unfold pxe_api_call
  simp [hout]

/-- Witness for C8 at the concrete opcode 0xFFFF. -/
theorem pxe_api_call_unknown_opcode_witness :
    (pxe_api_call stub_handlers 0xFFFF ⟨9, 4⟩ ⟨some ⟨READY⟩, true⟩).1 =
      PXENV_EXIT_FAILURE ∧
    (pxe_api_call stub_handlers 0xFFFF ⟨9, 4⟩ ⟨some ⟨READY⟩, true⟩).2.1.Status =
      PXENV_STATUS_UNSUPPORTED ∧
    (pxe_api_call stub_handlers 0xFFFF ⟨9, 4⟩ ⟨some ⟨READY⟩, true⟩).2.2.2 = [] :=
  pxe_api_call_unknown_opcode Nat stub_handlers 0xFFFF ⟨9, 4⟩ ⟨some ⟨READY⟩, true⟩
    (by decide)

/-- Claim C9: requesting the same state twice in a row with all provider
operations succeeding (possibly different succeeding provider records on
the two calls) yields true both times, and the recorded Lifecycle State
after the second call equals the one after the first — the second call
changes nothing. -/
theorem ensure_pxe_state_idempotent (p1 p2 : Providers) (wanted : pxe_stack_state_t)
    (w : World) (s0 : pxe_stack_t) (h : w.pxe_stack = some s0)
    (h1i : p1.installResult = true) (h1r : p1.removeResult = true)
    (h2i : p2.installResult = true) (h2r : p2.removeResult = true) :
    (ensure_pxe_state p1 wanted w).1 = true ∧
    (ensure_pxe_state p2 wanted (ensure_pxe_state p1 wanted w).2.1).1 = true ∧
    (ensure_pxe_state p2 wanted (ensure_pxe_state p1 wanted w).2.1).2.1 =
      (ensure_pxe_state p1 wanted w).2.1 := by
  revert p1 p2 wanted w s0
  decide

/-- Witness for C9 at a concrete input. -/
theorem ensure_pxe_state_idempotent_witness :
    (ensure_pxe_state ⟨true, true⟩ READY ⟨some ⟨CAN_UNLOAD⟩, false⟩).1 = true ∧
    (ensure_pxe_state ⟨true, true⟩ READY
      (ensure_pxe_state ⟨true, true⟩ READY ⟨some ⟨CAN_UNLOAD⟩, false⟩).2.1).1 = true ∧
    (ensure_pxe_state ⟨true, true⟩ READY
      (ensure_pxe_state ⟨true, true⟩ READY ⟨some ⟨CAN_UNLOAD⟩, false⟩).2.1).2.1 =
      (ensure_pxe_state ⟨true, true⟩ READY ⟨some ⟨CAN_UNLOAD⟩, false⟩).2.1 :=
  ensure_pxe_state_idempotent ⟨true, true⟩ ⟨true, true⟩ READY
    ⟨some ⟨CAN_UNLOAD⟩, false⟩ ⟨CAN_UNLOAD⟩ rfl rfl rfl rfl rfl

/-- Claim C10: for every opcode outside the registry, the dispatcher
mutates only the envelope's Status field: the payload is unchanged, the
program state (the stack handle and its Lifecycle State, and the hooked
vectors) is returned untouched, and the resulting envelope is exactly the
caller's envelope with only Status replaced. -/
theorem pxe_api_call_unknown_opcode_frame (ρ : Type)
    (handlers : Nat → Envelope ρ → World → Envelope ρ × Nat × World)
    (opcode : Nat) (any : Envelope ρ) (w : World)
    (hout : opcode ∉ pxe_opcode_list) :
    (pxe_api_call handlers opcode any w).2.1.payload = any.payload ∧
    (pxe_api_call handlers opcode any w).2.2.1 = w ∧
    (pxe_api_call handlers opcode any w).2.1 =
      { any with Status := PXENV_STATUS_UNSUPPORTED } := by
  unfold pxe_api_call
  simp [hout]

/-- Witness for C10 at the concrete opcode 0x1234. -/
theorem pxe_api_call_unknown_opcode_frame_witness :
    (pxe_api_call stub_handlers 0x1234 ⟨7, 11⟩ ⟨some ⟨MIDWAY⟩, false⟩).2.1.payload = 11 ∧
    (pxe_api_call stub_handlers 0x1234 ⟨7, 11⟩ ⟨some ⟨MIDWAY⟩, false⟩).2.2.1 =
      ⟨some ⟨MIDWAY⟩, false⟩ ∧
    (pxe_api_call stub_handlers 0x1234 ⟨7, 11⟩ ⟨some ⟨MIDWAY⟩, false⟩).2.1 =
      { Status := PXENV_STATUS_UNSUPPORTED, payload := 11 } :=
  pxe_api_call_unknown_opcode_frame Nat stub_handlers 0x1234 ⟨7, 11⟩
    ⟨some ⟨MIDWAY⟩, false⟩ (by decide)
